import Mathlib

/-!
Verification of the smart-energy-tracker repository (src/main.py) against its
natural-language specification.

The program is a Flask application over a single sqlite table
`energy_usage(id INTEGER PRIMARY KEY AUTOINCREMENT, timestamp DATETIME
DEFAULT CURRENT_TIMESTAMP, usage FLOAT NOT NULL)`, with helper functions
`init_db`, `insert_data`, `get_data` and routes `submit` and `visualize`.

Embedding choices:
- The sqlite table is a list of rows in rowid (insertion) order together with
  the next AUTOINCREMENT id.  sqlite's `CURRENT_TIMESTAMP` strings compare
  lexicographically exactly as chronologically, so timestamps are embedded as
  integers (seconds) with the usual order; `datetime('now', '-d days')`
  becomes `now - d * 86400`.
- The stored `usage` float is represented by the accepted input string: no
  claim inspects float arithmetic, only which strings `float()` accepts and
  that the accepted value is passed through to the insert.
- `sqlite3.Error` faults on the insert and on the query are explicit Boolean
  fault parameters: `true` means the corresponding sqlite call raises.
- Python `float(s)` acceptance is modelled by `pyFloatAccepts` below,
  covering the ASCII surface of CPython's grammar: optional surrounding
  whitespace, one optional sign, then inf / infinity / nan
  (case-insensitive) or a decimal literal with optional fraction and
  exponent, underscores allowed only directly between digits.
- Flask details: `jsonify(..)` with no code is HTTP 200; `request.form[k]`
  on a missing key raises `BadRequestKeyError` (a `KeyError`, not a
  `ValueError`), which the framework turns into a generic 400 with no
  handler-supplied JSON body; this is the `frameworkBadRequest` response.
-/

namespace SmartEnergyTracker

/-- ASCII whitespace stripped by Python `float(str)` (space, tab, newline,
carriage return, form feed, vertical tab). -/
def isPyWs (c : Char) : Bool :=
  c = ' ' || c = '\t' || c = '\n' || c = '\r' || c = '\x0c' || c = '\x0b'

/-- ASCII decimal digit. -/
def isAsciiDigit (c : Char) : Bool :=
  '0' ≤ c && c ≤ '9'

/-- PEP 515 placement rule enforced by CPython `float()`: every underscore
must be directly between two decimal digits. -/
def underscoresOk : List Char → Bool
  | [] => true
  | '_' :: _ => false
  | _ :: '_' :: [] => false
  | a :: '_' :: b :: rest =>
      isAsciiDigit a && isAsciiDigit b && underscoresOk (b :: rest)
  | _ :: rest => underscoresOk rest

/-- Consume a maximal run of decimal digits; return how many were consumed
and the remaining characters. -/
def munchDigits : List Char → Nat × List Char
  | [] => (0, [])
  | c :: rest =>
      if isAsciiDigit c then
        let p := munchDigits rest
        (p.1 + 1, p.2)
      else (0, c :: rest)

/-- Drop at most one leading sign character. -/
def dropSign : List Char → List Char
  | [] => []
  | c :: rest => if c = '+' || c = '-' then rest else c :: rest

/-- Accept the (possibly absent) exponent part of a float literal and
require that nothing follows it: empty input, or `e`/`E`, an optional sign,
and at least one digit. -/
def expOk : List Char → Bool
  | [] => true
  | c :: rest =>
      (c = 'e' || c = 'E') &&
        (let q := munchDigits (dropSign rest)
         decide (0 < q.1) && q.2.isEmpty)

/-- Accept a decimal mantissa followed by an optional exponent consuming the
whole input: digits, an optional point with optional further digits, with at
least one digit overall (so `1.`, `.5`, `1` are accepted and `.` is not). -/
def mantissaOk (cs : List Char) : Bool :=
  let p := munchDigits cs
  match p.2 with
  | '.' :: r2 =>
      let q := munchDigits r2
      decide (0 < p.1 + q.1) && expOk q.2
  | r1 => decide (0 < p.1) && expOk r1

/-- The body of a Python float literal after whitespace stripping and
underscore removal: one optional sign, then `inf`, `infinity` or `nan`
case-insensitively, or a decimal mantissa with optional exponent. -/
def pyFloatCore (cs : List Char) : Bool :=
  let t := dropSign cs
  let lower := t.map Char.toLower
  lower = "inf".toList || lower = "infinity".toList ||
    lower = "nan".toList || mantissaOk t

/-- Strip leading and trailing Python whitespace. -/
def stripWs (cs : List Char) : List Char :=
  ((cs.dropWhile isPyWs).reverse.dropWhile isPyWs).reverse

/-- Whether CPython `float(s)` succeeds (ASCII surface): strip surrounding
whitespace, check underscore placement, delete underscores, and match the
float-literal grammar. -/
def pyFloatAccepts (s : String) : Bool :=
  let cs := stripWs s.toList
  underscoresOk cs && pyFloatCore (cs.filter (fun c => c ≠ '_'))

/-- One row of the `energy_usage` table: rowid, timestamp, and the stored
usage value (represented by the accepted input string). -/
structure Reading where
  id : Nat
  timestamp : Int
  usage : String
deriving DecidableEq

/-- The sqlite store: rows in rowid (insertion) order plus the next
AUTOINCREMENT id. -/
structure DB where
  rows : List Reading
  nextId : Nat
deriving DecidableEq

/-- `init_db` in src/main.py: create the empty `energy_usage` table;
AUTOINCREMENT ids start at 1. -/
def init_db : DB :=
  ⟨[], 1⟩

/-- `insert_data(usage)` in src/main.py: `INSERT INTO energy_usage (usage)
VALUES (?)`, the row getting the next AUTOINCREMENT id and the current
timestamp.  The whole body is inside `try .. except sqlite3.Error`, which
only prints the error: on a fault (`fault = true`) the function swallows the
exception and leaves the store unchanged, returning normally either way. -/
def insert_data (db : DB) (now : Int) (usage : String) (fault : Bool) : DB :=
  if fault then db
  else ⟨db.rows ++ [⟨db.nextId, now, usage⟩], db.nextId + 1⟩

/-- The cutoff `datetime('now', '-days days')` used by `get_data`: `now`
minus `days` days in seconds.  The sqlite modifier string `-{days} days` is
only well formed for a nonnegative day count; the single call site uses the
default 7. -/
def windowStart (now : Int) (days : Nat) : Int :=
  now - (days : Int) * 86400

/-- `get_data(days=7)` in src/main.py: `SELECT timestamp, usage FROM
energy_usage WHERE timestamp >= datetime('now', '-days days')` — a filter
with no ORDER BY, so rows come back in rowid (insertion) order.  A
`sqlite3.Error` (`fault = true`) is caught and an empty DataFrame is
returned. -/
def get_data (db : DB) (now : Int) (days : Nat) (fault : Bool) :
    List (Int × String) :=
  if fault then []
  else (db.rows.filter (fun r => windowStart now days ≤ r.timestamp)).map
    (fun r => (r.timestamp, r.usage))

/-- An HTTP response from the `/submit` route: status code plus the
`status` and `message` fields of the handler's JSON body (`none` when the
body is not produced by the handler). -/
structure HttpResponse where
  code : Nat
  status : Option String
  message : Option String
deriving DecidableEq

/-- The success acknowledgment of `/submit` (jsonify with no code: 200). -/
def successResp : HttpResponse :=
  ⟨200, some "success", some "Data added successfully!"⟩

/-- The invalid-input response of `/submit`. -/
def invalidResp : HttpResponse :=
  ⟨400, some "error", some "Invalid input! Please enter a numeric value."⟩

/-- The framework's generic bad request produced when
`request.form['usage']` raises `BadRequestKeyError`: a 400 with no
handler-supplied JSON body. -/
def frameworkBadRequest : HttpResponse :=
  ⟨400, none, none⟩

/-- The `/submit` route in src/main.py.  `formUsage` is the form's `usage`
field when present.  A missing field makes `request.form['usage']` raise
`BadRequestKeyError`, which is a `KeyError` and is not caught by the
handler's `except ValueError`, so the framework answers with a generic 400
and no insert happens.  Otherwise `float(..)` either raises `ValueError`
(the 400 JSON error, no insert) or succeeds, in which case `insert_data`
runs (with `insertFault` saying whether sqlite raises inside it) and the
success JSON is returned unconditionally, since `insert_data` returns
normally even on a fault. -/
def submit (db : DB) (now : Int) (formUsage : Option String)
    (insertFault : Bool) : HttpResponse × DB :=
  match formUsage with
  | none => (frameworkBadRequest, db)
  | some s =>
      if pyFloatAccepts s then
        (successResp, insert_data db now s insertFault)
      else
        (invalidResp, db)

/-- An HTTP response from `/visualize`: code, JSON `status`, and the
optional `message` / `image_path` fields. -/
structure VisResponse where
  code : Nat
  status : String
  message : Option String
  image_path : Option String
deriving DecidableEq

/-- The no-data client error of `/visualize`. -/
def noDataResp : VisResponse :=
  ⟨400, "error", some "No data available for visualization.", none⟩

/-- The rendering-failure server error of `/visualize`. -/
def renderFailResp : VisResponse :=
  ⟨500, "error", some "Failed to generate visualization.", none⟩

/-- The success response of `/visualize` with the fixed image path. -/
def visOkResp : VisResponse :=
  ⟨200, "success", none, some "static/usage_plot.png"⟩

/-- The outcome of one `/visualize` request: the response, whether the
matplotlib rendering code was invoked, and the data it was given to plot
(`[]` when it was never invoked). -/
structure VisOutcome where
  resp : VisResponse
  rendered : Bool
  chartData : List (Int × String)
deriving DecidableEq

/-- The `/visualize` route in src/main.py: fetch `get_data()` (the default
`days = 7`), answer the 400 no-data error on an empty result without
touching matplotlib, otherwise plot the data and save the image
(`renderFault = true` meaning the plotting raises, caught as the 500
response). -/
def visualize (db : DB) (now : Int) (fetchFault renderFault : Bool) :
    VisOutcome :=
  if (get_data db now 7 fetchFault).isEmpty then ⟨noDataResp, false, []⟩
  else if renderFault then ⟨renderFailResp, true, get_data db now 7 fetchFault⟩
  else ⟨visOkResp, true, get_data db now 7 fetchFault⟩

/-- Modelled from the spec: `fetchRecent(days)` "returns all Readings with
`timestamp >= now - days`, ordered by timestamp ascending".  Given for
refinement comparison with the source's `get_data`, which applies the same
window filter but has no ORDER BY. -/
def fetchRecentSpec (db : DB) (now : Int) (days : Nat) :
    List (Int × String) :=
  ((db.rows.filter (fun r => windowStart now days ≤ r.timestamp)).map
    (fun r => (r.timestamp, r.usage))).insertionSort (fun a b => a.1 ≤ b.1)

/-- Store invariant maintained by the AUTOINCREMENT id assignment: rowids
strictly increase along the table and stay below the next id. -/
def dbInv (db : DB) : Prop :=
  List.Pairwise (fun a b => a.id < b.id) db.rows ∧
    ∀ r ∈ db.rows, r.id < db.nextId

instance (db : DB) : Decidable (dbInv db) := by
  unfold dbInv; infer_instance

/-- Stored timestamps are non-decreasing in rowid order (what the system's
inserts guarantee, since every timestamp is the server's current time). -/
def tsSorted (rows : List Reading) : Prop :=
  List.Pairwise (fun a b => a.timestamp ≤ b.timestamp) rows

instance (rows : List Reading) : Decidable (tsSorted rows) := by
  unfold tsSorted; infer_instance

/-- C1 counterexample: with a numeric `usage` and a sqlite fault during the
insert, the route answers with the success acknowledgment (and the store is
unchanged), not with a failure response as the claim states: `insert_data`
catches the `sqlite3.Error` itself and `submit` cannot observe it. -/
theorem submit_fault_reports_success_cex :
    (submit init_db 0 (some "12.5") true).1 = successResp ∧
    (submit init_db 0 (some "12.5") true).2 = init_db := by
  decide

/-- C1 (amended): when the insert fails with a storage error, `insert_data`
catches and merely logs it; the route still returns the success
acknowledgment, the store is unchanged, and the write is not retried (the
single swallowed attempt is all that happens). -/
theorem submit_storage_fault_swallowed (db : DB) (now : Int) (s : String)
    (hs : pyFloatAccepts s = true) :
    submit db now (some s) true = (successResp, db) := by
  simp [submit, hs, insert_data]

/-- Witness for `submit_storage_fault_swallowed` at a concrete input. -/
theorem submit_storage_fault_swallowed_witness :
    pyFloatAccepts "7.5" = true ∧
    submit init_db 3 (some "7.5") true = (successResp, init_db) :=
  ⟨by decide, submit_storage_fault_swallowed init_db 3 "7.5" (by decide)⟩

/-- C3: for every string the Python float conversion accepts, `/submit`
returns the success body `{status: success, message: Data added
successfully!}` and the store holds exactly one more reading, namely the
new row carrying the submitted value. -/
theorem submit_numeric_success (db : DB) (now : Int) (s : String)
    (hs : pyFloatAccepts s = true) :
    (submit db now (some s) false).1 = successResp ∧
    ((submit db now (some s) false).2).rows.length = db.rows.length + 1 ∧
    (⟨db.nextId, now, s⟩ : Reading) ∈ ((submit db now (some s) false).2).rows := by
  simp [submit, hs, insert_data]

/-- Witness for `submit_numeric_success` at a concrete input. -/
theorem submit_numeric_success_witness :
    pyFloatAccepts "12.5" = true ∧
    ((submit init_db 0 (some "12.5") false).1 = successResp ∧
      ((submit init_db 0 (some "12.5") false).2).rows.length =
        init_db.rows.length + 1 ∧
      (⟨init_db.nextId, 0, "12.5"⟩ : Reading) ∈
        ((submit init_db 0 (some "12.5") false).2).rows) :=
  ⟨by decide, submit_numeric_success init_db 0 "12.5" (by decide)⟩

/-- C4: for every string the Python float conversion rejects, `/submit`
raises `ValueError` before any insert, answers the 400 body
`{status: error, message: Invalid input! Please enter a numeric value.}`,
and the store is unchanged whatever the storage fault state. -/
theorem submit_nonnumeric_rejected (db : DB) (now : Int) (s : String)
    (f : Bool) (hs : pyFloatAccepts s = false) :
    submit db now (some s) f = (invalidResp, db) := by
  simp [submit, hs]

/-- Witness for `submit_nonnumeric_rejected` at a concrete input. -/
theorem submit_nonnumeric_rejected_witness :
    pyFloatAccepts "abc" = false ∧
    submit init_db 0 (some "abc") true = (invalidResp, init_db) :=
  ⟨by decide, submit_nonnumeric_rejected init_db 0 "abc" true (by decide)⟩

/-- C9: a `/submit` request whose form has no `usage` field makes
`request.form` lookup raise an uncaught `KeyError` (`BadRequestKeyError`),
so the framework answers a generic 400 that is neither the specified
success body nor the specified error body, and the store is unchanged. -/
theorem submit_missing_field (db : DB) (now : Int) (f : Bool) :
    submit db now none f = (frameworkBadRequest, db) ∧
    frameworkBadRequest.code = 400 ∧
    frameworkBadRequest.status = none ∧
    frameworkBadRequest ≠ successResp ∧
    frameworkBadRequest ≠ invalidResp :=
  ⟨rfl, rfl, rfl, by decide, by decide⟩

/-- C10: the validation accepts exactly what Python `float` accepts,
including the non-finite spellings `inf`, `-Infinity`, `nan` and
whitespace-padded numerals; each such submission is acknowledged with the
success body and the value is passed to the insert unchecked (the stored
row carries it). -/
theorem submit_accepts_nonfinite :
    pyFloatAccepts "inf" = true ∧
    pyFloatAccepts "-Infinity" = true ∧
    pyFloatAccepts "nan" = true ∧
    pyFloatAccepts "  12.5 " = true ∧
    submit init_db 0 (some "inf") false =
      (successResp, ⟨[⟨1, 0, "inf"⟩], 2⟩) ∧
    (submit init_db 0 (some "-Infinity") false).1 = successResp ∧
    (submit init_db 0 (some "nan") false).1 = successResp ∧
    (submit init_db 0 (some "  12.5 ") false).1 = successResp := by
  decide

/-- C2 counterexample: the SELECT has no ORDER BY, so rows come back in
rowid order; with a backdated second row the returned sequence is not
ascending by timestamp and differs from the spec's ordered result. -/
theorem get_data_unordered_cex :
    get_data ⟨[⟨1, 100, "5"⟩, ⟨2, 50, "6"⟩], 3⟩ 100 7 false =
      [(100, "5"), (50, "6")] ∧
    ¬ List.Pairwise (fun a b => a.1 ≤ b.1)
      (get_data ⟨[⟨1, 100, "5"⟩, ⟨2, 50, "6"⟩], 3⟩ 100 7 false) ∧
    get_data ⟨[⟨1, 100, "5"⟩, ⟨2, 50, "6"⟩], 3⟩ 100 7 false ≠
      fetchRecentSpec ⟨[⟨1, 100, "5"⟩, ⟨2, 50, "6"⟩], 3⟩ 100 7 := by
  decide

/-- C2 (amended): `get_data` returns exactly the readings with
`timestamp >= now - days` — in rowid (insertion) order, since the query has
no ORDER BY; whenever the stored timestamps are non-decreasing in rowid
order (which the system's inserts guarantee), this coincides with the
spec's ascending-by-timestamp ordering of the in-window subset. -/
theorem get_data_window_order (db : DB) (now : Int) (days : Nat)
    (h : tsSorted db.rows) :
    (∀ r ∈ db.rows, windowStart now days ≤ r.timestamp →
      (r.timestamp, r.usage) ∈ get_data db now days false) ∧
    (∀ p ∈ get_data db now days false, windowStart now days ≤ p.1) ∧
    get_data db now days false = fetchRecentSpec db now days := by
  refine ⟨?_, ?_, ?_⟩
  · intro r hr hw
    simp only [get_data, if_neg Bool.false_ne_true, List.mem_map,
      List.mem_filter]
    exact ⟨r, ⟨hr, by simpa using hw⟩, rfl⟩
  · intro p hp
    simp only [get_data, if_neg Bool.false_ne_true, List.mem_map,
      List.mem_filter] at hp
    obtain ⟨r, ⟨hr, hw⟩, he⟩ := hp
    subst he
    simpa using hw
  · have hpw : List.Pairwise (fun a b => a.timestamp ≤ b.timestamp)
        (db.rows.filter (fun r => windowStart now days ≤ r.timestamp)) :=
      h.sublist (List.filter_sublist _)
    have hsorted : List.Sorted (fun a b : Int × String => a.1 ≤ b.1)
        ((db.rows.filter (fun r => windowStart now days ≤ r.timestamp)).map
          (fun r => (r.timestamp, r.usage))) :=
      List.pairwise_map.mpr hpw
    simp only [get_data, fetchRecentSpec, if_neg Bool.false_ne_true]
    exact (hsorted.insertionSort_eq).symm

/-- Witness for `get_data_window_order` at a concrete store whose
timestamps are non-decreasing, with one row outside the 7-day window. -/
theorem get_data_window_order_witness :
    tsSorted (DB.mk [⟨1, 10, "1"⟩, ⟨2, 700000, "2"⟩] 3).rows ∧
    ((∀ r ∈ (DB.mk [⟨1, 10, "1"⟩, ⟨2, 700000, "2"⟩] 3).rows,
        windowStart 700000 7 ≤ r.timestamp →
        (r.timestamp, r.usage) ∈
          get_data (DB.mk [⟨1, 10, "1"⟩, ⟨2, 700000, "2"⟩] 3) 700000 7 false) ∧
      (∀ p ∈ get_data (DB.mk [⟨1, 10, "1"⟩, ⟨2, 700000, "2"⟩] 3) 700000 7 false,
        windowStart 700000 7 ≤ p.1) ∧
      get_data (DB.mk [⟨1, 10, "1"⟩, ⟨2, 700000, "2"⟩] 3) 700000 7 false =
        fetchRecentSpec (DB.mk [⟨1, 10, "1"⟩, ⟨2, 700000, "2"⟩] 3) 700000 7) :=
  ⟨by decide,
    get_data_window_order (DB.mk [⟨1, 10, "1"⟩, ⟨2, 700000, "2"⟩] 3)
      700000 7 (by decide)⟩

/-- C5: when no stored reading lies in the 7-day query window, `/visualize`
answers the 400 body `{status: error, message: No data available for
visualization.}` without ever invoking the matplotlib rendering code, so no
image file is produced. -/
theorem visualize_no_data_in_window (db : DB) (now : Int) (ff rf : Bool)
    (h : ∀ r ∈ db.rows, r.timestamp < windowStart now 7) :
    visualize db now ff rf = ⟨noDataResp, false, []⟩ := by
  have hg : get_data db now 7 ff = [] := by
    cases ff
    · simp only [get_data, if_neg Bool.false_ne_true, List.map_eq_nil_iff,
        List.filter_eq_nil_iff]
      intro r hr
      simpa using not_le.mpr (h r hr)
    · rfl
  simp [visualize, hg]

/-- Witness for `visualize_no_data_in_window`: one stored reading, well
outside the window. -/
theorem visualize_no_data_in_window_witness :
    (∀ r ∈ (DB.mk [⟨1, 0, "9"⟩] 2).rows,
      r.timestamp < windowStart 700000 7) ∧
    visualize (DB.mk [⟨1, 0, "9"⟩] 2) 700000 false false =
      ⟨noDataResp, false, []⟩ :=
  ⟨by decide,
    visualize_no_data_in_window (DB.mk [⟨1, 0, "9"⟩] 2) 700000 false false
      (by decide)⟩

/-- C6: a sqlite fault during the fetch is caught inside `get_data`, which
returns an empty result instead of propagating, and `/visualize` therefore
answers the no-data 400 rather than crashing the request. -/
theorem get_data_fault_treated_as_no_data (db : DB) (now : Int) (days : Nat)
    (rf : Bool) :
    get_data db now days true = [] ∧
    visualize db now true rf = ⟨noDataResp, false, []⟩ :=
  ⟨rfl, rfl⟩

/-- C7: `/visualize` delegates to `get_data` with the default window of 7
days: the data handed to the renderer is exactly the 7-day fetch, so every
plotted reading has `timestamp >= now - 7 days`. -/
theorem visualize_seven_day_window (db : DB) (now : Int) (ff rf : Bool) :
    (visualize db now ff rf).chartData = get_data db now 7 ff ∧
    ∀ p ∈ (visualize db now ff rf).chartData, windowStart now 7 ≤ p.1 := by
  have hsub : ∀ p ∈ get_data db now 7 ff, windowStart now 7 ≤ p.1 := by
    intro p hp
    cases ff
    · simp only [get_data, if_neg Bool.false_ne_true, List.mem_map,
        List.mem_filter] at hp
      obtain ⟨r, ⟨hr, hw⟩, he⟩ := hp
      subst he
      simpa using hw
    · simp [get_data] at hp
  have hcd : (visualize db now ff rf).chartData = get_data db now 7 ff := by
    unfold visualize
    split
    · next hemp => exact (List.isEmpty_iff.mp hemp).symm
    · split <;> rfl
  exact ⟨hcd, fun p hp => hsub p (hcd ▸ hp)⟩

/-- C8: two sequential successful submissions — here of the same usage
value — create readings with the distinct AUTOINCREMENT ids `nextId` and
`nextId + 1`, both retrievable from the store, and the store invariant
(ids strictly increasing, below the next id, never reused or mutated) is
preserved. -/
theorem sequential_submissions_distinct_ids (db : DB) (n1 n2 : Int)
    (u : String) (hu : pyFloatAccepts u = true) (hinv : dbInv db) :
    (⟨db.nextId, n1, u⟩ : Reading) ∈
      ((submit ((submit db n1 (some u) false).2) n2 (some u) false).2).rows ∧
    (⟨db.nextId + 1, n2, u⟩ : Reading) ∈
      ((submit ((submit db n1 (some u) false).2) n2 (some u) false).2).rows ∧
    db.nextId ≠ db.nextId + 1 ∧
    dbInv ((submit ((submit db n1 (some u) false).2) n2 (some u) false).2) := by
  have hs : (submit ((submit db n1 (some u) false).2) n2 (some u) false).2 =
      ⟨db.rows ++ [⟨db.nextId, n1, u⟩, ⟨db.nextId + 1, n2, u⟩],
        db.nextId + 2⟩ := by
    simp [submit, hu, insert_data]
  rw [hs]
  obtain ⟨hpw, hlt⟩ := hinv
  refine ⟨by simp, by simp, Nat.ne_of_lt (Nat.lt_succ_self _), ?_, ?_⟩
  · apply List.pairwise_append.mpr
    refine ⟨hpw, by simp, ?_⟩
    intro a ha b hb
    have hai := hlt a ha
    simp only [List.mem_cons, List.mem_singleton, List.not_mem_nil,
      or_false] at hb
    rcases hb with hb | hb <;> subst hb <;> simp <;> omega
  · intro r hr
    simp only [List.mem_append, List.mem_cons, List.mem_singleton,
      List.not_mem_nil, or_false] at hr
    rcases hr with hr | hr | hr
    · exact Nat.lt_trans (hlt r hr) (show db.nextId < db.nextId + 2 by omega)
    · subst hr; simp
    · subst hr; simp

/-- Witness for `sequential_submissions_distinct_ids`: two submissions of
the value 2.5 into the freshly initialized store. -/
theorem sequential_submissions_distinct_ids_witness :
    pyFloatAccepts "2.5" = true ∧ dbInv init_db ∧
    ((⟨init_db.nextId, 1, "2.5"⟩ : Reading) ∈
      ((submit ((submit init_db 1 (some "2.5") false).2) 2
        (some "2.5") false).2).rows ∧
    (⟨init_db.nextId + 1, 2, "2.5"⟩ : Reading) ∈
      ((submit ((submit init_db 1 (some "2.5") false).2) 2
        (some "2.5") false).2).rows ∧
    init_db.nextId ≠ init_db.nextId + 1 ∧
    dbInv ((submit ((submit init_db 1 (some "2.5") false).2) 2
      (some "2.5") false).2)) :=
  ⟨by decide, by decide,
    sequential_submissions_distinct_ids init_db 1 2 "2.5"
      (by decide) (by decide)⟩

end SmartEnergyTracker
